import Mathlib

/-!
Verification of the LaTeX/TikZ code-generation engine of the mathtable-latex
repository (file `src/utils/latexGenerator.js`).  Every definition below is a
shallow embedding of the corresponding JavaScript function, keeping the
source's names and branch structure.  JavaScript strings are modelled as Lean
`String`; JavaScript array indexing `xs[i]` (which yields `undefined` out of
range, a falsy value that every use-site in the source immediately coerces
through `||`, `? :` or `===` comparisons against non-empty literals) is
modelled as `jsGetStr`, which yields `""` out of range.
-/

namespace MathTable

/-- JavaScript array read `xs[i]`: out-of-range access produces `undefined`,
which behaves as the falsy `""` in every use-site of the generator. -/
def jsGetStr (xs : List String) (i : Nat) : String := xs.getD i ""

/-- JavaScript `a || b` on strings: `a` is falsy exactly when it is empty. -/
def jsOr (a b : String) : String := if a = "" then b else a

theorem strAssoc (a b c : String) : a ++ b ++ c = a ++ (b ++ c) := by
  apply String.ext
  simp [String.data_append]

theorem strEmptyAppend (s : String) : "" ++ s = s := by
  apply String.ext
  simp [String.data_append]

theorem strAppendEmpty (s : String) : s ++ "" = s := by
  apply String.ext
  simp [String.data_append]

/-- One step of a global literal-pattern replacement (the effect of the
JavaScript `String.prototype.replace` with a `g`-flagged literal regex):
scan left to right, replace each non-overlapping occurrence of `pat`,
and continue after the replacement text.  `fuel` is the length of the
scanned list, which bounds the recursion. -/
def replaceAux (pat rep : List Char) : Nat → List Char → List Char
  | _, [] => []
  | 0, s => s
  | fuel + 1, c :: rest =>
    if pat.isPrefixOf (c :: rest) then
      rep ++ replaceAux pat rep fuel (List.drop (pat.length - 1) rest)
    else
      c :: replaceAux pat rep fuel rest

/-- Global replacement of the literal pattern `pat` by `rep`. -/
def replaceAllL (pat rep s : List Char) : List Char :=
  if pat = [] then s else replaceAux pat rep s.length s

/-- The ordered symbol-conversion table of `toLatexSymbol` (JavaScript object
literal; `Object.entries` iterates string keys in insertion order). -/
def symbolConversions : List (String × String) :=
  [("∞", "\\infty"), ("+∞", "+\\infty"), ("-∞", "-\\infty"),
   ("π", "\\pi"), ("√", "\\sqrt"),
   ("≤", "\\leq"), ("≥", "\\geq"), ("≠", "\\neq"), ("±", "\\pm"),
   ("×", "\\times"), ("÷", "\\div"),
   ("α", "\\alpha"), ("β", "\\beta"), ("γ", "\\gamma"), ("δ", "\\delta"),
   ("θ", "\\theta"), ("λ", "\\lambda"), ("μ", "\\mu"), ("σ", "\\sigma"),
   ("φ", "\\phi"), ("ω", "\\omega")]

/-- Function `toLatexSymbol` from `latexGenerator.js`: empty input returns `""`;
input already containing a backslash is returned unchanged; otherwise each
conversion-table entry is applied as a global literal replacement, in table
order. -/
def toLatexSymbol (value : String) : String :=
  if value = "" then ""
  else if value.data.contains '\\' then value
  else ⟨symbolConversions.foldl (fun r p => replaceAllL p.1.data p.2.data r) value.data⟩

/-- Variant of `toLatexSymbol` applied to a possibly-`null` JavaScript value:
`null` is falsy, so the `if (!value) return ''` guard yields `""`. -/
def toLatexSymbolOpt : Option String → String
  | none => ""
  | some s => toLatexSymbol s

/-- Function `wrapMath` from `latexGenerator.js`. -/
def wrapMath (value : String) : String :=
  if value = "" then "$~$" else "$" ++ toLatexSymbol value ++ "$"

/-- First `replace` of `escapeLatex`: `/\\/g → '\textbackslash{}'`. -/
def escapeChar1 (c : Char) : List Char :=
  if c = '\\' then "\\textbackslash\x7b\x7d".data else [c]

/-- Second `replace` of `escapeLatex`: `/[&%$#_{}]/g → '\' + match`. -/
def escapeChar2 (c : Char) : List Char :=
  if c ∈ ['&', '%', '$', '#', '_', '\x7b', '\x7d'] then ['\\', c] else [c]

/-- Third `replace` of `escapeLatex`: `/~/g → '\textasciitilde{}'`. -/
def escapeChar3 (c : Char) : List Char :=
  if c = '~' then "\\textasciitilde\x7b\x7d".data else [c]

/-- Fourth `replace` of `escapeLatex`: `/\^/g → '\textasciicircum{}'`. -/
def escapeChar4 (c : Char) : List Char :=
  if c = '^' then "\\textasciicircum\x7b\x7d".data else [c]

/-- Function `escapeLatex` from `latexGenerator.js`: four chained global replacements,
each one a single-character pattern, applied in source order. -/
def escapeLatex (str : String) : String :=
  if str = "" then ""
  else
    ⟨((((str.data.flatMap escapeChar1).flatMap escapeChar2).flatMap
        escapeChar3).flatMap escapeChar4)⟩

/-- A sign/expression row as consumed by the generator: `name`, `signs` and
`pointTypes` of an entry of the `expressions` array. -/
structure Expression where
  name : String
  signs : List String
  pointTypes : List String
deriving DecidableEq

/-- The `{lgt, espcl, deltacl}` layout object.  The numeric fields are
modelled by their decimal rendering in the emitted template literal; a `none`
field is an absent property, picked up by the destructuring defaults
`lgt = 2, espcl = 2, deltacl = 0.5` inside `generateTabInit`. -/
structure LayoutConfig where
  lgt : Option String
  espcl : Option String
  deltacl : Option String

/-- A JavaScript property that distinguishes `undefined` (absent — triggers a
destructuring default) from an explicit `null` (falsy but present) and from a
real value. -/
inductive JsOpt (α : Type) where
  | undef
  | jnull
  | val (a : α)
deriving DecidableEq

/-- The `tableData` object consumed by `generateFullDocument` and
`generateTikzSnippet`.  `none` stands for an absent (`undefined`) property.
The JavaScript field `variable` is called `varName` here (`variable` is a
Lean keyword). -/
structure TableData where
  varName : Option String
  functionName : Option String
  points : Option (List String)
  signs : Option (List String)
  pointSigns : Option (List String)
  arrows : Option (List String)
  values : Option (List String)
  expressions : Option (List Expression)
  tableType : Option String
  variationFunctionName : Option String
  layoutConfig : JsOpt LayoutConfig
  variationPointTypes : Option (List String)
  variationLeftValues : Option (List String)

/-- Function `generateTabInit` from `latexGenerator.js`. -/
def generateTabInit (varName functionName : String) (points : List String)
    (includeSign includeVariation : Bool) (expressions : List Expression)
    (variationFunctionName : Option String)
    (layoutConfig : Option LayoutConfig) : String :=
  let varLatex := jsOr (toLatexSymbol varName) "x"
  let funcLatex := jsOr (toLatexSymbol functionName) "f(x)"
  let varFuncLatex := jsOr (toLatexSymbolOpt variationFunctionName) funcLatex
  let columns : List String :=
    ["$" ++ varLatex ++ "$ / 1"]
      ++ (if includeSign then
            (if expressions ≠ [] then
              expressions.map (fun expr =>
                "$" ++ jsOr (toLatexSymbol expr.name) "f(x)" ++ "$ / 1")
            else ["$" ++ funcLatex ++ "$ / 1"])
          else [])
      ++ (if includeVariation then ["$" ++ varFuncLatex ++ "$ / 1.5"] else [])
  let pointsList := String.intercalate ", " (points.map wrapMath)
  let optionalParams :=
    match layoutConfig with
    | none => ""
    | some cfg =>
        "[lgt=" ++ cfg.lgt.getD "2" ++ ",espcl=" ++ cfg.espcl.getD "2"
          ++ ",deltacl=" ++ cfg.deltacl.getD "0.5" ++ "]"
  "\\tkzTabInit" ++ optionalParams ++ "\x7b" ++ String.intercalate " , " columns
    ++ "\x7d\x7b" ++ pointsList ++ "\x7d"

/-- The token pushed for point `i` by the loop of `generateTabLine`:
`pointTypes[i] || 'n'`, and `'n'` becomes the empty field. -/
def pointTok (pointTypes : List String) (i : Nat) : String :=
  let pointType := if jsGetStr pointTypes i = "" then "n" else jsGetStr pointTypes i
  if pointType = "n" then "" else pointType

/-- The loop body of `generateTabLine`, with `i` the running point index:
for each interval push the annotation of its left point and then the sign,
and close with the annotation of the last point. -/
def tabLineCore (signs : List String) (pointTypes : List String) (i : Nat) :
    List String :=
  match signs with
  | [] => [pointTok pointTypes i]
  | s :: rest => pointTok pointTypes i :: s :: tabLineCore rest pointTypes (i + 1)

/-- The `parts` array of `generateTabLine`. -/
def tabLineParts (signs pointTypes : List String) : List String :=
  tabLineCore signs pointTypes 0

/-- Function `generateTabLine` from `latexGenerator.js`. -/
def generateTabLine (signs : List String) (pointTypes : List String := []) :
    String :=
  if signs = [] then ""
  else "\\tkzTabLine\x7b" ++ String.intercalate ", " (tabLineParts signs pointTypes)
    ++ "\x7d"

/-- The `val` local of the `generateSimpleTabVar` loop:
`values[i] ? \`$...$\` : ''` (a falsy entry gives the empty string). -/
def svVal (values : List String) (i : Nat) : String :=
  if jsGetStr values i = "" then ""
  else "$" ++ toLatexSymbol (jsGetStr values i) ++ "$"

/-- The `leftVal` local of the `generateSimpleTabVar` loop:
`leftValues[i] ? \`$...$\` : val`. -/
def svLeftVal (values leftValues : List String) (i : Nat) : String :=
  if jsGetStr leftValues i = "" then svVal values i
  else "$" ++ toLatexSymbol (jsGetStr leftValues i) ++ "$"

/-- The `prevArrow` local: `i > 0 ? arrows[i - 1] : null`. -/
def svPrev (arrows : List String) (i : Nat) : Option String :=
  if 0 < i then some (jsGetStr arrows (i - 1)) else none

/-- The `currArrow` local: `i < n ? arrows[i] : null`. -/
def svCurr (arrows : List String) (i : Nat) : Option String :=
  if i < arrows.length then some (jsGetStr arrows i) else none

/-- The `inPos` local: initialised to `'-'`, then set by the `prevArrow`
chain (`'up' → '+'`, `'down' → '-'`, `'h' → '-'`). -/
def svInPos (arrows : List String) (i : Nat) : String :=
  if svPrev arrows i = some "up" then "+"
  else if svPrev arrows i = some "down" then "-"
  else if svPrev arrows i = some "h" then "-"
  else "-"

/-- The `outPos` local: initialised to `'-'`, then set by the `currArrow`
chain (`'up' → '-'`, `'down' → '+'`, `'h' → '-'`). -/
def svOutPos (arrows : List String) (i : Nat) : String :=
  if svCurr arrows i = some "up" then "-"
  else if svCurr arrows i = some "down" then "+"
  else if svCurr arrows i = some "h" then "-"
  else "-"

/-- The token pushed for point `i` by the loop of `generateSimpleTabVar`,
with its branch cascade in source order: double-bar points, entering a
hatched zone, inside a hatched zone, exiting a hatched zone, first point,
last point, middle points. -/
def svToken (arrows values pointTypes leftValues : List String) (i : Nat) :
    String :=
  if jsGetStr pointTypes i = "d" then
    if i = 0 then
      "D" ++ svOutPos arrows i ++ "/ " ++ svVal values i
    else if i = arrows.length then
      svInPos arrows i ++ "D/ " ++ svLeftVal values leftValues i
    else
      svInPos arrows i ++ "D" ++ svOutPos arrows i ++ "/ "
        ++ svLeftVal values leftValues i ++ " / " ++ svVal values i
  else if svCurr arrows i = some "h" ∧ svPrev arrows i ≠ some "h" then
    (if svPrev arrows i = some "up" then "+"
     else if svPrev arrows i = some "down" then "-"
     else svOutPos arrows i) ++ "H/ " ++ svVal values i
  else if svPrev arrows i = some "h" ∧ svCurr arrows i = some "h" then
    "R/"
  else if svPrev arrows i = some "h" ∧ svCurr arrows i ≠ some "h" then
    (if svCurr arrows i = some "up" then "-"
     else if svCurr arrows i = some "down" then "+"
     else svInPos arrows i) ++ "/ " ++ svVal values i
  else if i = 0 then
    svOutPos arrows i ++ "/ " ++ svVal values i
  else if i = arrows.length then
    svInPos arrows i ++ "/ " ++ svVal values i
  else
    (if svPrev arrows i = some "up" ∧ svCurr arrows i = some "down" then "+"
     else if svPrev arrows i = some "down" ∧ svCurr arrows i = some "up" then "-"
     else if svCurr arrows i = some "up" then "-"
     else "+") ++ "/ " ++ svVal values i

/-- The `parts` array of `generateSimpleTabVar`: one token per point index
`0 ≤ i ≤ n` where `n = arrows.length`. -/
def svParts (arrows values pointTypes leftValues : List String) : List String :=
  (List.range (arrows.length + 1)).map (svToken arrows values pointTypes leftValues)

/-- Function `generateSimpleTabVar` from `latexGenerator.js`. -/
def generateSimpleTabVar (arrows values : List String)
    (pointTypes : List String := []) (leftValues : List String := []) : String :=
  if arrows = [] then ""
  else "\\tkzTabVar\x7b"
    ++ String.intercalate ", " (svParts arrows values pointTypes leftValues)
    ++ "\x7d"

/-- Function `generatePreamble` from `latexGenerator.js`. -/
def generatePreamble : String :=
  "\\documentclass[border=5pt]\x7bstandalone\x7d\n\\usepackage[utf8]\x7binputenc\x7d\n\\usepackage[T1]\x7bfontenc\x7d\n\\usepackage\x7btikz\x7d\n\\usetikzlibrary\x7bpatterns\x7d\n\\usepackage\x7btkz-tab\x7d\n\\tikzset\x7bh style/.style=\x7bpattern=north west lines\x7d\x7d"

/-- Predicate `tableType === 'sign' || tableType === 'both'`. -/
def includeSignB (tableType : String) : Bool :=
  tableType == "sign" || tableType == "both"

/-- Predicate `tableType === 'variation' || tableType === 'both'`. -/
def includeVariationB (tableType : String) : Bool :=
  tableType == "variation" || tableType == "both"

/-- The `body` string built by `generateFullDocument` (everything that goes
between `\begin{tikzpicture}` and `\end{tikzpicture}` after the leading
newline of the template).  The destructuring defaults of the source are
applied here; in particular an absent `layoutConfig` becomes
`{lgt: 2, espcl: 2, deltacl: 0.5}`, while an explicit `null` stays falsy. -/
def fullDocBody (td : TableData) : String :=
  let v := td.varName.getD "x"
  let f := td.functionName.getD "f(x)"
  let points := td.points.getD ["-\\infty", "0", "+\\infty"]
  let signs := td.signs.getD []
  let pointSigns := td.pointSigns.getD []
  let arrows := td.arrows.getD []
  let values := td.values.getD []
  let expressions := td.expressions.getD []
  let tableType := td.tableType.getD "both"
  let layoutConfig : Option LayoutConfig :=
    match td.layoutConfig with
    | .undef => some ⟨some "2", some "2", some "0.5"⟩
    | .jnull => none
    | .val c => some c
  let includeSign := includeSignB tableType
  let includeVariation := includeVariationB tableType
  generateTabInit v f points includeSign includeVariation expressions
      td.variationFunctionName layoutConfig ++ "\n"
    ++ (if includeSign then
          (if expressions ≠ [] then
            String.join (expressions.map (fun expr =>
              if expr.signs ≠ [] then generateTabLine expr.signs expr.pointTypes ++ "\n"
              else ""))
          else if signs ≠ [] then generateTabLine signs pointSigns ++ "\n"
          else "")
        else "")
    ++ (if includeVariation ∧ arrows ≠ [] then
          generateSimpleTabVar arrows values (td.variationPointTypes.getD [])
              (td.variationLeftValues.getD []) ++ "\n"
        else "")

/-- Function `generateFullDocument` from `latexGenerator.js`. -/
def generateFullDocument (td : TableData) : String :=
  generatePreamble ++ "\n\n\\begin\x7bdocument\x7d\n\\begin\x7btikzpicture\x7d\n"
    ++ fullDocBody td ++ "\\end\x7btikzpicture\x7d\n\\end\x7bdocument\x7d"

/-- The `body` string built by `generateTikzSnippet`.  The snippet path never
destructures `expressions`, `variationFunctionName` or `layoutConfig`, so
`generateTabInit` is called with its parameter defaults
(`expressions = []`, `variationFunctionName = null`, `layoutConfig = null`). -/
def snippetBody (td : TableData) : String :=
  let v := td.varName.getD "x"
  let f := td.functionName.getD "f(x)"
  let points := td.points.getD ["-\\infty", "0", "+\\infty"]
  let signs := td.signs.getD []
  let pointSigns := td.pointSigns.getD []
  let arrows := td.arrows.getD []
  let values := td.values.getD []
  let tableType := td.tableType.getD "both"
  let includeSign := includeSignB tableType
  let includeVariation := includeVariationB tableType
  generateTabInit v f points includeSign includeVariation [] none none ++ "\n"
    ++ (if includeSign ∧ signs ≠ [] then generateTabLine signs pointSigns ++ "\n"
        else "")
    ++ (if includeVariation ∧ arrows ≠ [] then
          generateSimpleTabVar arrows values (td.variationPointTypes.getD [])
              (td.variationLeftValues.getD []) ++ "\n"
        else "")

/-- Function `generateTikzSnippet` from `latexGenerator.js`. -/
def generateTikzSnippet (td : TableData) : String :=
  "\\begin\x7btikzpicture\x7d\n" ++ snippetBody td ++ "\\end\x7btikzpicture\x7d"

theorem tabLineCore_length (signs pointTypes : List String) (i : Nat) :
    (tabLineCore signs pointTypes i).length = 2 * signs.length + 1 := by
  induction signs generalizing i with
  | nil => rfl
  | cons s rest ih =>
    simp only [tabLineCore, List.length_cons, ih, List.length]
    ring

theorem tabLineCore_get_even (signs pointTypes : List String) (i j : Nat)
    (h : j ≤ signs.length) :
    (tabLineCore signs pointTypes i)[2 * j]? = some (pointTok pointTypes (i + j)) := by
  induction signs generalizing i j with
  | nil =>
    have hj : j = 0 := Nat.le_zero.mp h
    subst hj
    rfl
  | cons s rest ih =>
    cases j with
    | zero => rfl
    | succ k =>
      have hk : k ≤ rest.length := by simpa using h
      have harith : 2 * (k + 1) = 2 * k + 1 + 1 := by ring
      have harith2 : i + (k + 1) = i + 1 + k := by omega
      rw [harith, harith2]
      show (pointTok pointTypes i :: s :: tabLineCore rest pointTypes (i + 1))[2 * k + 1 + 1]? = _
      rw [List.getElem?_cons_succ, List.getElem?_cons_succ]
      exact ih (i + 1) k hk

theorem tabLineCore_get_odd (signs pointTypes : List String) (i j : Nat)
    (h : j < signs.length) :
    (tabLineCore signs pointTypes i)[2 * j + 1]? = signs[j]? := by
  induction signs generalizing i j with
  | nil => exact absurd h (by simp)
  | cons s rest ih =>
    cases j with
    | zero => simp [tabLineCore]
    | succ k =>
      have hk : k < rest.length := by simpa using h
      have harith : 2 * (k + 1) + 1 = (2 * k + 1) + 1 + 1 := by ring
      rw [harith]
      show (pointTok pointTypes i :: s :: tabLineCore rest pointTypes (i + 1))[2 * k + 1 + 1 + 1]? = _
      rw [List.getElem?_cons_succ, List.getElem?_cons_succ, ih (i + 1) k hk,
        List.getElem?_cons_succ]

/-- C5: for N >= 2 points (hence a nonempty `signs` array of N-1 interval
signs), `generateTabLine` emits the comma-separated `parts` list, that list
has exactly 2N-1 entries, point annotations sit at the even positions
(hence first and last) and the interval signs at the odd positions verbatim,
a `'n'` (None) or missing annotation becomes the empty string, and every
other annotation passes through verbatim. -/
theorem claim_C5 (signs pointTypes : List String) (h : signs ≠ []) :
    generateTabLine signs pointTypes
        = "\\tkzTabLine\x7b" ++ String.intercalate ", " (tabLineParts signs pointTypes)
          ++ "\x7d"
      ∧ (tabLineParts signs pointTypes).length = 2 * signs.length + 1
      ∧ (∀ i, i ≤ signs.length →
          (tabLineParts signs pointTypes)[2 * i]? = some (pointTok pointTypes i))
      ∧ (∀ i, i < signs.length →
          (tabLineParts signs pointTypes)[2 * i + 1]? = signs[i]?)
      ∧ (∀ i, jsGetStr pointTypes i = "n" ∨ jsGetStr pointTypes i = "" →
          pointTok pointTypes i = "")
      ∧ (∀ i, jsGetStr pointTypes i ≠ "n" → jsGetStr pointTypes i ≠ "" →
          pointTok pointTypes i = jsGetStr pointTypes i) := by
  refine ⟨by simp [generateTabLine, h], tabLineCore_length signs pointTypes 0,
    ?_, ?_, ?_, ?_⟩
  · intro i hi
    simpa using tabLineCore_get_even signs pointTypes 0 i hi
  · intro i hi
    exact tabLineCore_get_odd signs pointTypes 0 i hi
  · intro i hi
    rcases hi with hn | he
    · simp [pointTok, hn]
    · simp [pointTok, he]
  · intro i hn he
    simp [pointTok, hn, he]

/-- C5 witness: the basic sign table of the spec's Example 1. -/
theorem claim_C5_witness :
    (tabLineParts ["-", "+"] ["", "z", ""]).length = 2 * 2 + 1
      ∧ tabLineParts ["-", "+"] ["", "z", ""] = ["", "-", "z", "+", ""] :=
  ⟨(claim_C5 ["-", "+"] ["", "z", ""] (by decide)).2.1, by decide⟩

/-- C10: `generateTabLine` is total in `pointTypes`; a point index with no
`pointTypes` entry (shorter array, or the absent-argument default `[]`)
behaves exactly like the `'n'` (None) annotation and is emitted as the empty
token, and the emitted `parts` list still has its full 2N-1 length.  (In the
embedding, the out-of-range read `pointTypes[i]` is `jsGetStr`, which models
JavaScript's non-failing `undefined` result, so no out-of-range failure can
occur.) -/
theorem claim_C10 (signs pointTypes : List String) (i : Nat)
    (hmiss : pointTypes.length ≤ i) (hle : i ≤ signs.length) :
    pointTok pointTypes i = ""
      ∧ (tabLineParts signs pointTypes)[2 * i]? = some ""
      ∧ (tabLineParts signs pointTypes).length = 2 * signs.length + 1 := by
  have hempty : jsGetStr pointTypes i = "" := by
    unfold jsGetStr
    exact List.getD_eq_default _ _ hmiss
  have htok : pointTok pointTypes i = "" := by simp [pointTok, hempty]
  refine ⟨htok, ?_, tabLineCore_length signs pointTypes 0⟩
  have := tabLineCore_get_even signs pointTypes 0 i hle
  simpa [htok] using this

/-- C10 witness: an entirely absent `pointTypes` array with two intervals. -/
theorem claim_C10_witness :
    pointTok [] 2 = "" ∧ (tabLineParts ["+", "-"] [])[2 * 2]? = some "" :=
  ⟨(claim_C10 ["+", "-"] [] 2 (by decide) (by decide)).1,
   (claim_C10 ["+", "-"] [] 2 (by decide) (by decide)).2.1⟩

/-- C7: `toLatexSymbol` returns any string that already contains a backslash
unchanged (the pre-formatted-LaTeX pass-through), so normalising
already-normalised output is idempotent. -/
theorem claim_C7 (s : String) (h : s.data.contains '\\' = true) :
    toLatexSymbol s = s := by
  unfold toLatexSymbol
  by_cases h1 : s = ""
  · rw [if_pos h1, h1]
  · rw [if_neg h1, if_pos h]

/-- C7 witness: an already-formatted LaTeX macro passes through. -/
theorem claim_C7_witness : toLatexSymbol "\\pi" = "\\pi" :=
  claim_C7 "\\pi" (by decide)

/-- C8: evaluating `escapeLatex` at the failing input.  The one-character
string consisting of a backslash is escaped to `\textbackslash\{\}` — the
braces inserted by the first replacement are re-escaped by the second,
character-class replacement — and not to the claimed `\textbackslash{}`.
The one-character input `{` does yield `\{` as claimed. -/
theorem claim_C8 :
    escapeLatex "\\" = "\\textbackslash\\\x7b\\\x7d"
      ∧ escapeLatex "\x7b" = "\\\x7b"
      ∧ escapeLatex "\\" ≠ "\\textbackslash\x7b\x7d" :=
  ⟨by decide, by decide, by decide⟩

theorem svPrev_eq_some (arrows : List String) (i : Nat) (s : String) :
    svPrev arrows i = some s ↔ 0 < i ∧ jsGetStr arrows (i - 1) = s := by
  unfold svPrev
  split_ifs with h <;> simp [h]

theorem svCurr_eq_some (arrows : List String) (i : Nat) (s : String) :
    svCurr arrows i = some s ↔ i < arrows.length ∧ jsGetStr arrows i = s := by
  unfold svCurr
  split_ifs with h <;> simp [h]

theorem svInPos_eq (arrows : List String) (i : Nat) :
    svInPos arrows i = if 0 < i ∧ jsGetStr arrows (i - 1) = "up" then "+" else "-" := by
  unfold svInPos
  by_cases h : svPrev arrows i = some "up"
  · rw [if_pos h, if_pos ((svPrev_eq_some arrows i "up").mp h)]
  · rw [if_neg h, if_neg (fun hc => h ((svPrev_eq_some arrows i "up").mpr hc))]
    split_ifs <;> rfl

theorem svOutPos_eq (arrows : List String) (i : Nat) :
    svOutPos arrows i = if i < arrows.length ∧ jsGetStr arrows i = "down" then "+" else "-" := by
  unfold svOutPos
  by_cases hd : svCurr arrows i = some "down"
  · have hup : ¬ svCurr arrows i = some "up" := by
      rw [hd]
      decide
    rw [if_neg hup, if_pos hd, if_pos ((svCurr_eq_some arrows i "down").mp hd)]
  · rw [if_neg (fun hc => hd ((svCurr_eq_some arrows i "down").mpr hc))]
    by_cases h1 : svCurr arrows i = some "up"
    · rw [if_pos h1]
    · rw [if_neg h1, if_neg hd]
      by_cases h3 : svCurr arrows i = some "h"
      · rw [if_pos h3]
      · rw [if_neg h3]

theorem svParts_get (arrows values pointTypes leftValues : List String) (i : Nat)
    (h : i ≤ arrows.length) :
    (svParts arrows values pointTypes leftValues)[i]?
      = some (svToken arrows values pointTypes leftValues i) := by
  unfold svParts
  rw [List.getElem?_map, List.getElem?_range (by omega)]
  rfl

theorem splitD (x : String) : x ++ "D/ " = x ++ "D" ++ "/ " := by
  rw [strAssoc]
  rfl

theorem splitH (x : String) : x ++ "H/ " = x ++ "H" ++ "/ " := by
  rw [strAssoc]
  rfl

/-- C2 (amended): in a `generateSimpleTabVar` token, every value slot is the
`val`/`leftVal` string of the source loop; a non-empty source value is
wrapped in inline-math `$...$`, while an empty (or missing) source value
yields the empty string — an empty argument, not the `$~$` placeholder
(which only `wrapMath` produces, and `generateSimpleTabVar` does not call
`wrapMath`).  Every token is either the bare `R/`, or carries one or two
such slots after a `/ ` separator. -/
theorem claim_C2_amended (arrows values pointTypes leftValues : List String) (i : Nat) :
    (svToken arrows values pointTypes leftValues i = "R/"
      ∨ (∃ pre, svToken arrows values pointTypes leftValues i
          = pre ++ "/ " ++ svVal values i)
      ∨ (∃ pre, svToken arrows values pointTypes leftValues i
          = pre ++ "/ " ++ svLeftVal values leftValues i)
      ∨ (∃ pre, svToken arrows values pointTypes leftValues i
          = pre ++ "/ " ++ svLeftVal values leftValues i ++ " / " ++ svVal values i))
    ∧ (jsGetStr values i = "" → svVal values i = "")
    ∧ (jsGetStr values i ≠ "" →
        svVal values i = "$" ++ toLatexSymbol (jsGetStr values i) ++ "$")
    ∧ (jsGetStr leftValues i = "" →
        svLeftVal values leftValues i = svVal values i)
    ∧ (jsGetStr leftValues i ≠ "" →
        svLeftVal values leftValues i
          = "$" ++ toLatexSymbol (jsGetStr leftValues i) ++ "$") := by
  refine ⟨?_, ?_, ?_, ?_, ?_⟩
  · unfold svToken
    by_cases c1 : jsGetStr pointTypes i = "d"
    · rw [if_pos c1]
      by_cases c1a : i = 0
      · rw [if_pos c1a]
        exact Or.inr (Or.inl ⟨_, rfl⟩)
      · rw [if_neg c1a]
        by_cases c1b : i = arrows.length
        · rw [if_pos c1b]
          refine Or.inr (Or.inr (Or.inl ⟨svInPos arrows i ++ "D", ?_⟩))
          rw [splitD]
        · rw [if_neg c1b]
          exact Or.inr (Or.inr (Or.inr ⟨_, rfl⟩))
    · rw [if_neg c1]
      by_cases c2 : svCurr arrows i = some "h" ∧ svPrev arrows i ≠ some "h"
      · rw [if_pos c2]
        refine Or.inr (Or.inl ⟨(if svPrev arrows i = some "up" then "+"
          else if svPrev arrows i = some "down" then "-"
          else svOutPos arrows i) ++ "H", ?_⟩)
        rw [splitH]
      · rw [if_neg c2]
        by_cases c3 : svPrev arrows i = some "h" ∧ svCurr arrows i = some "h"
        · rw [if_pos c3]
          exact Or.inl rfl
        · rw [if_neg c3]
          by_cases c4 : svPrev arrows i = some "h" ∧ svCurr arrows i ≠ some "h"
          · rw [if_pos c4]
            exact Or.inr (Or.inl ⟨_, rfl⟩)
          · rw [if_neg c4]
            by_cases c5 : i = 0
            · rw [if_pos c5]
              exact Or.inr (Or.inl ⟨_, rfl⟩)
            · rw [if_neg c5]
              by_cases c6 : i = arrows.length
              · rw [if_pos c6]
                exact Or.inr (Or.inl ⟨_, rfl⟩)
              · rw [if_neg c6]
                exact Or.inr (Or.inl ⟨_, rfl⟩)
  · intro he
    simp [svVal, he]
  · intro he
    simp [svVal, he]
  · intro he
    simp [svLeftVal, he]
  · intro he
    simp [svLeftVal, he]

/-- C2 witness: a non-empty value is emitted math-wrapped. -/
theorem claim_C2_amended_witness :
    svVal ["5"] 0 = "$" ++ toLatexSymbol "5" ++ "$" :=
  (claim_C2_amended ["up"] ["5"] [] [] 0).2.2.1 (by decide)

/-- C2 counterexample: with a single Increasing arrow and empty values,
the two emitted tokens end in `/ ` followed by an empty argument, not by
the claimed `$~$` placeholder. -/
theorem claim_C2_counterexample :
    svParts ["up"] [] [] [] = ["-/ ", "+/ "]
      ∧ generateSimpleTabVar ["up"] [] [] [] = "\\tkzTabVar\x7b-/ , +/ \x7d"
      ∧ ("-/ " : String) ≠ "-/ $~$" :=
  ⟨by decide, by decide, by decide⟩

/-- C3: hatched-zone transition tokens of `generateSimpleTabVar` at a
non-double-bar point `i`.  Entering a hatched zone (next interval hatched,
previous not) emits `<pos>H/ <value>` with `pos` equal to `+` for an
Increasing incoming arrow, `-` for Decreasing, and otherwise the `-` that
the `outPos` mapping assigns to the hatched next arrow.  A point interior
to a hatched zone emits the bare `R/` with no value.  Exiting a hatched
zone emits `<pos>/ <value>` with `pos` equal to `-` for an Increasing next
arrow, `+` for Decreasing, and otherwise the `-` that the `inPos` fallback
assigns to the hatched previous arrow.  The final conjunct grounds
`svToken` as the token emitted at position `i` of the parts list. -/
theorem claim_C3 (arrows values pointTypes leftValues : List String) (i : Nat)
    (hi : i ≤ arrows.length) (hd : jsGetStr pointTypes i ≠ "d") :
    ((i < arrows.length ∧ jsGetStr arrows i = "h")
        ∧ ¬(0 < i ∧ jsGetStr arrows (i - 1) = "h") →
      svToken arrows values pointTypes leftValues i
        = (if 0 < i ∧ jsGetStr arrows (i - 1) = "up" then "+" else "-")
          ++ "H/ " ++ svVal values i)
    ∧ ((0 < i ∧ jsGetStr arrows (i - 1) = "h")
        ∧ (i < arrows.length ∧ jsGetStr arrows i = "h") →
      svToken arrows values pointTypes leftValues i = "R/")
    ∧ ((0 < i ∧ jsGetStr arrows (i - 1) = "h")
        ∧ ¬(i < arrows.length ∧ jsGetStr arrows i = "h") →
      svToken arrows values pointTypes leftValues i
        = (if i < arrows.length ∧ jsGetStr arrows i = "up" then "-"
           else if i < arrows.length ∧ jsGetStr arrows i = "down" then "+"
           else "-")
          ++ "/ " ++ svVal values i)
    ∧ (svParts arrows values pointTypes leftValues)[i]?
        = some (svToken arrows values pointTypes leftValues i) := by
  refine ⟨?_, ?_, ?_, svParts_get arrows values pointTypes leftValues i hi⟩
  · rintro ⟨hch, hph⟩
    have hc : svCurr arrows i = some "h" := (svCurr_eq_some arrows i "h").mpr hch
    have hp : svPrev arrows i ≠ some "h" :=
      fun hx => hph ((svPrev_eq_some arrows i "h").mp hx)
    unfold svToken
    rw [if_neg hd, if_pos ⟨hc, hp⟩]
    congr 2
    by_cases hu : svPrev arrows i = some "up"
    · rw [if_pos hu, if_pos ((svPrev_eq_some arrows i "up").mp hu)]
    · rw [if_neg hu, if_neg (fun hx => hu ((svPrev_eq_some arrows i "up").mpr hx))]
      by_cases hdn : svPrev arrows i = some "down"
      · rw [if_pos hdn]
      · rw [if_neg hdn, svOutPos_eq]
        rw [if_neg ?_]
        rintro ⟨-, hx⟩
        rw [hch.2] at hx
        exact absurd hx (by decide)
  · rintro ⟨hph, hch⟩
    have hc : svCurr arrows i = some "h" := (svCurr_eq_some arrows i "h").mpr hch
    have hp : svPrev arrows i = some "h" := (svPrev_eq_some arrows i "h").mpr hph
    unfold svToken
    rw [if_neg hd, if_neg (fun hx => hx.2 hp), if_pos ⟨hp, hc⟩]
  · rintro ⟨hph, hch⟩
    have hp : svPrev arrows i = some "h" := (svPrev_eq_some arrows i "h").mpr hph
    have hcn : svCurr arrows i ≠ some "h" :=
      fun hx => hch ((svCurr_eq_some arrows i "h").mp hx)
    unfold svToken
    rw [if_neg hd, if_neg (fun hx => hcn hx.1), if_neg (fun hx => hcn hx.2),
      if_pos ⟨hp, hcn⟩]
    congr 2
    by_cases hu : svCurr arrows i = some "up"
    · rw [if_pos hu, if_pos ((svCurr_eq_some arrows i "up").mp hu)]
    · rw [if_neg hu, if_neg (fun hx => hu ((svCurr_eq_some arrows i "up").mpr hx))]
      by_cases hdn : svCurr arrows i = some "down"
      · rw [if_pos hdn, if_pos ((svCurr_eq_some arrows i "down").mp hdn)]
      · rw [if_neg hdn, if_neg (fun hx => hdn ((svCurr_eq_some arrows i "down").mpr hx)),
          svInPos_eq]
        rw [if_neg ?_]
        rintro ⟨-, hx⟩
        rw [hph.2] at hx
        exact absurd hx (by decide)

/-- C3 witness: the spec's Example 3 shape — Increasing then Hatched:
point 1 enters the hatched zone with a `+H/` token. -/
theorem claim_C3_witness :
    svToken ["up", "h"] ["0", "1"] [] [] 1 = "+H/ $1$" :=
  (((claim_C3 ["up", "h"] ["0", "1"] [] [] 1 (by decide) (by decide)).1
    (by decide)).trans (by decide))

/-- C4: double-bar tokens of `generateSimpleTabVar` over the N = n+1 points
of an n-arrow row.  At a point with pointKind DoubleBar the rule fires
regardless of the surrounding arrows (so it takes precedence over the
hatched-zone and default rules): at `i = 0` the token is `D<outPos>/ <value>`,
at `i = N-1` it is `<inPos>D/ <leftValue>`, and at interior points it is
`<inPos>D<outPos>/ <leftValue> / <value>`, where `inPos` is `+` exactly for
an Increasing previous arrow (`-` for Decreasing and Hatched) and `outPos`
is `+` exactly for a Decreasing next arrow (`-` for Increasing and Hatched). -/
theorem claim_C4 (arrows values pointTypes leftValues : List String) (i : Nat)
    (hn : arrows ≠ []) (hi : i ≤ arrows.length)
    (hd : jsGetStr pointTypes i = "d") :
    (i = 0 → svToken arrows values pointTypes leftValues i
        = "D" ++ (if i < arrows.length ∧ jsGetStr arrows i = "down" then "+" else "-")
          ++ "/ " ++ svVal values i)
    ∧ (i = arrows.length → svToken arrows values pointTypes leftValues i
        = (if 0 < i ∧ jsGetStr arrows (i - 1) = "up" then "+" else "-")
          ++ "D/ " ++ svLeftVal values leftValues i)
    ∧ (0 < i → i < arrows.length → svToken arrows values pointTypes leftValues i
        = (if 0 < i ∧ jsGetStr arrows (i - 1) = "up" then "+" else "-")
          ++ "D"
          ++ (if i < arrows.length ∧ jsGetStr arrows i = "down" then "+" else "-")
          ++ "/ " ++ svLeftVal values leftValues i ++ " / " ++ svVal values i)
    ∧ (svParts arrows values pointTypes leftValues)[i]?
        = some (svToken arrows values pointTypes leftValues i) := by
  refine ⟨?_, ?_, ?_, svParts_get arrows values pointTypes leftValues i hi⟩
  · intro h0
    unfold svToken
    rw [if_pos hd, if_pos h0, svOutPos_eq]
  · intro hlast
    have h0 : i ≠ 0 := by
      have := List.length_pos.mpr hn
      omega
    unfold svToken
    rw [if_pos hd, if_neg h0, if_pos hlast, svInPos_eq]
  · intro hpos hlt
    have h0 : i ≠ 0 := by omega
    have hne : i ≠ arrows.length := by omega
    unfold svToken
    rw [if_pos hd, if_neg h0, if_neg hne, svInPos_eq, svOutPos_eq]

/-- C4 witness: a double bar at the first of two points. -/
theorem claim_C4_witness :
    svToken ["up"] ["A", "B"] ["d"] [] 0 = "D-/ $A$" :=
  (((claim_C4 ["up"] ["A", "B"] ["d"] [] 0 (by decide) (by decide)
    (by decide)).1 rfl).trans (by decide))

/-- C9: at a DoubleBar point whose left value is empty or missing, the
`leftVal` slot falls back to the math-wrapped right-hand value `val`, so the
interior token stacks the same value twice and the last-point token shows
the right-hand value. -/
theorem claim_C9 (arrows values pointTypes leftValues : List String) (i : Nat)
    (hn : arrows ≠ []) (hi : i ≤ arrows.length)
    (hd : jsGetStr pointTypes i = "d") (hl : jsGetStr leftValues i = "") :
    (0 < i → i < arrows.length → svToken arrows values pointTypes leftValues i
        = svInPos arrows i ++ "D" ++ svOutPos arrows i ++ "/ "
          ++ svVal values i ++ " / " ++ svVal values i)
    ∧ (i = arrows.length → svToken arrows values pointTypes leftValues i
        = svInPos arrows i ++ "D/ " ++ svVal values i) := by
  have hlv : svLeftVal values leftValues i = svVal values i := by
    unfold svLeftVal
    rw [if_pos hl]
  constructor
  · intro hpos hlt
    have h0 : i ≠ 0 := by omega
    have hne : i ≠ arrows.length := by omega
    unfold svToken
    rw [if_pos hd, if_neg h0, if_neg hne, hlv]
  · intro hlast
    have h0 : i ≠ 0 := by
      have := List.length_pos.mpr hn
      omega
    unfold svToken
    rw [if_pos hd, if_neg h0, if_pos hlast, hlv]

/-- C9 witness: interior double bar with no left value — both stacked slots
show the math-wrapped right-hand value. -/
theorem claim_C9_witness :
    svToken ["up", "down"] ["1", "2", "3"] ["", "d"] [] 1 = "+D+/ $2$ / $2$" :=
  (((claim_C9 ["up", "down"] ["1", "2", "3"] ["", "d"] [] 1 (by decide)
    (by decide) (by decide) (by decide)).1 (by decide) (by decide)).trans
    (by decide))

/-- C6: `generateTabInit` emits a single header macro call whose column-spec
group gives the variable column and every sign-row column weight 1
(entries of shape `$label$ / 1`), gives the variation column weight 1.5,
whose second brace group is the comma-joined math-wrapped point sequence,
and which, when the layout configuration is absent (`null`), omits the
optional bracket group entirely — the macro name is immediately followed by
the first brace group, with no default literal printed.  The second conjunct
shows the same column/point structure for an arbitrary layout argument. -/
theorem claim_C6 (varName functionName : String) (points : List String)
    (includeSign includeVariation : Bool) (expressions : List Expression)
    (variationFunctionName : Option String) :
    generateTabInit varName functionName points includeSign includeVariation
        expressions variationFunctionName none
      = "\\tkzTabInit\x7b"
        ++ String.intercalate " , "
          (["$" ++ jsOr (toLatexSymbol varName) "x" ++ "$ / 1"]
            ++ (if includeSign then
                  (if expressions ≠ [] then
                    expressions.map (fun expr =>
                      "$" ++ jsOr (toLatexSymbol expr.name) "f(x)" ++ "$ / 1")
                  else ["$" ++ jsOr (toLatexSymbol functionName) "f(x)" ++ "$ / 1"])
                else [])
            ++ (if includeVariation then
                  ["$" ++ jsOr (toLatexSymbolOpt variationFunctionName)
                      (jsOr (toLatexSymbol functionName) "f(x)") ++ "$ / 1.5"]
                else []))
        ++ "\x7d\x7b" ++ String.intercalate ", " (points.map wrapMath) ++ "\x7d"
      ∧ ∀ layoutConfig, ∃ opt,
          generateTabInit varName functionName points includeSign includeVariation
              expressions variationFunctionName layoutConfig
            = "\\tkzTabInit" ++ opt ++ "\x7b"
              ++ String.intercalate " , "
                (["$" ++ jsOr (toLatexSymbol varName) "x" ++ "$ / 1"]
                  ++ (if includeSign then
                        (if expressions ≠ [] then
                          expressions.map (fun expr =>
                            "$" ++ jsOr (toLatexSymbol expr.name) "f(x)" ++ "$ / 1")
                        else ["$" ++ jsOr (toLatexSymbol functionName) "f(x)"
                            ++ "$ / 1"])
                      else [])
                  ++ (if includeVariation then
                        ["$" ++ jsOr (toLatexSymbolOpt variationFunctionName)
                            (jsOr (toLatexSymbol functionName) "f(x)") ++ "$ / 1.5"]
                      else []))
              ++ "\x7d\x7b" ++ String.intercalate ", " (points.map wrapMath) ++ "\x7d" := by
  constructor
  · simp only [generateTabInit]
    rw [strAppendEmpty]
    rfl
  · intro layoutConfig
    cases layoutConfig with
    | none =>
      refine ⟨"", ?_⟩
      simp only [generateTabInit]
    | some cfg =>
      refine ⟨"[lgt=" ++ cfg.lgt.getD "2" ++ ",espcl=" ++ cfg.espcl.getD "2"
        ++ ",deltacl=" ++ cfg.deltacl.getD "0.5" ++ "]", ?_⟩
      simp only [generateTabInit]

/-- C1 (amended): the drawing-block contents of `generateFullDocument` and
`generateTikzSnippet` coincide only under extra conditions: no expression
rows, a `null` `variationFunctionName`, and an explicitly `null`
`layoutConfig` (so that the full-document path does not substitute its
default `{lgt: 2, espcl: 2, deltacl: 0.5}`).  Under those conditions the
full document is exactly the preamble plus document wrapper around the
snippet, so the drawing-block content is byte-identical. -/
theorem claim_C1_amended (td : TableData)
    (he : td.expressions = none ∨ td.expressions = some [])
    (hv : td.variationFunctionName = none)
    (hl : td.layoutConfig = JsOpt.jnull) :
    fullDocBody td = snippetBody td
      ∧ generateFullDocument td
        = generatePreamble ++ "\n\n\\begin\x7bdocument\x7d\n"
          ++ generateTikzSnippet td ++ "\n\\end\x7bdocument\x7d" := by
  have hexp : td.expressions.getD [] = [] := by
    rcases he with h | h <;> simp [h]
  have hbody : fullDocBody td = snippetBody td := by
    simp only [fullDocBody, snippetBody, hv, hl, hexp, ite_and, ne_eq,
      not_true_eq_false, if_false, ite_not, if_true]
  refine ⟨hbody, ?_⟩
  have h1 : ("\n\n\\begin\x7bdocument\x7d\n\\begin\x7btikzpicture\x7d\n" : String)
      = "\n\n\\begin\x7bdocument\x7d\n" ++ "\\begin\x7btikzpicture\x7d\n" := rfl
  have h2 : ("\\end\x7btikzpicture\x7d\n\\end\x7bdocument\x7d" : String)
      = "\\end\x7btikzpicture\x7d" ++ "\n\\end\x7bdocument\x7d" := rfl
  unfold generateFullDocument generateTikzSnippet
  rw [h1, h2, hbody]
  simp only [strAssoc]

/-- A table description with an absent `layoutConfig` (so the full-document
path substitutes its default) used to separate the two output modes. -/
def tdDefaultLayout : TableData :=
  ⟨none, none, some ["0", "1"], none, none, none, none, none, some "sign",
   none, JsOpt.undef, none, none⟩

set_option maxRecDepth 16384 in
/-- C1 counterexample: on a minimal sign-only table description with an
absent `layoutConfig`, the full document's drawing block carries the header
macro with the default `[lgt=2,espcl=2,deltacl=0.5]` bracket group while the
snippet's drawing block omits it, so the two drawing-block contents are not
byte-identical. -/
theorem claim_C1_counterexample :
    fullDocBody tdDefaultLayout
        = "\\tkzTabInit[lgt=2,espcl=2,deltacl=0.5]\x7b$x$ / 1 , $f(x)$ / 1\x7d\x7b$0$, $1$\x7d\n"
      ∧ snippetBody tdDefaultLayout
        = "\\tkzTabInit\x7b$x$ / 1 , $f(x)$ / 1\x7d\x7b$0$, $1$\x7d\n"
      ∧ fullDocBody tdDefaultLayout ≠ snippetBody tdDefaultLayout
      ∧ generateFullDocument tdDefaultLayout
        = generatePreamble
          ++ "\n\n\\begin\x7bdocument\x7d\n\\begin\x7btikzpicture\x7d\n\\tkzTabInit[lgt=2,espcl=2,deltacl=0.5]\x7b$x$ / 1 , $f(x)$ / 1\x7d\x7b$0$, $1$\x7d\n\\end\x7btikzpicture\x7d\n\\end\x7bdocument\x7d"
      ∧ generateTikzSnippet tdDefaultLayout
        = "\\begin\x7btikzpicture\x7d\n\\tkzTabInit\x7b$x$ / 1 , $f(x)$ / 1\x7d\x7b$0$, $1$\x7d\n\\end\x7btikzpicture\x7d" :=
  ⟨by decide, by decide, by decide, by decide, by decide⟩

/-- The same table description with an explicitly null `layoutConfig`. -/
def tdNullLayout : TableData :=
  ⟨none, none, some ["0", "1"], none, none, none, none, none, some "sign",
   none, JsOpt.jnull, none, none⟩

/-- C1 witness: with no expression rows, a null `variationFunctionName` and
an explicitly null `layoutConfig`, the two drawing-block bodies coincide. -/
theorem claim_C1_witness : fullDocBody tdNullLayout = snippetBody tdNullLayout :=
  (claim_C1_amended tdNullLayout (Or.inl rfl) rfl rfl).1

end MathTable
